import Mathlib

/-
  Verification of the rules-architect repository: a shallow embedding of the
  provider request builders, response parsers, tool-schema converter, the
  analyze operation of the OpenAI architect, and the Phase 2 / Phase 3 pipeline
  units, together with theorems settling the frozen claims about them.

  Python dictionaries with a fixed key set are embedded as Lean structures
  whose optional keys are Option fields (none = key absent or value None).
  Python floats are carried as rationals (they are only stored, never
  computed on).  Exceptions are embedded as Except String.
-/

namespace RulesArchitect

/-- Modelled from the spec: the ReasoningMode enumeration lives in
core/agents/base.py, which is not part of the provided source tree; §3 of the
spec lists the variants {DISABLED, ENABLED, MINIMAL, LOW, MEDIUM, HIGH,
TEMPERATURE} and the builders use the lowercase member name as the value
string (the provider effort string of the same name). -/
inductive ReasoningMode
  | DISABLED
  | ENABLED
  | MINIMAL
  | LOW
  | MEDIUM
  | HIGH
  | TEMPERATURE
deriving DecidableEq, Repr

/-- Modelled from the spec: the string value of a ReasoningMode member, the
lowercase member name (the request builders read reasoning.value for the
effort modes). -/
def ReasoningMode.value : ReasoningMode → String
  | .DISABLED => "disabled"
  | .ENABLED => "enabled"
  | .MINIMAL => "minimal"
  | .LOW => "low"
  | .MEDIUM => "medium"
  | .HIGH => "high"
  | .TEMPERATURE => "temperature"

/-- Modelled from the spec: the ModelProvider enumeration of
core/agents/base.py (not in the source tree); §3 lists the variants. -/
inductive ModelProvider
  | OPENAI
  | ANTHROPIC
  | GEMINI
  | XAI
  | DEEPSEEK
deriving DecidableEq, Repr

/-- Parameter (json-schema) object of a canonical tool.  Property subschemas
are arbitrary JSON in the source; they are carried here as opaque strings
keyed by property name, since no conversion ever inspects them. -/
structure ParamsSchema where
  type : String
  properties : List (String × String)
  required : Option (List String)
deriving DecidableEq, Repr

/-- Modelled from the spec: the canonical tool shape of §4.2,
function part: name, description, parameters (the Tool TypedDict of
agentrules/core/types/tool_config.py is not in the source tree). -/
structure ToolFunction where
  name : String
  description : String
  parameters : ParamsSchema
deriving DecidableEq, Repr

/-- Modelled from the spec: canonical tool
type plus function part, per §4.2. -/
structure Tool where
  type : String
  function : ToolFunction
deriving DecidableEq, Repr

/-- Python str.lower of the ASCII model names (String.toLower, embedded as
a character-list map so that proofs can evaluate it). -/
def pyLower (s : String) : String :=
  ⟨s.data.map Char.toLower⟩

/-- Python str.strip (String.trim, embedded as character-list operations so
that proofs can evaluate it): drops leading and trailing whitespace. -/
def pyStrip (s : String) : String :=
  ⟨((s.data.dropWhile Char.isWhitespace).reverse.dropWhile
      Char.isWhitespace).reverse⟩

/-- Splits a character list on every occurrence of a non-empty separator,
leftmost-first (the character-level semantics shared by Python str.split
with a separator and String.splitOn). -/
def splitCharsAux (sep : List Char) : Nat → List Char → List (List Char)
  | _, [] => [[]]
  | 0, cs => [cs]
  | fuel + 1, c :: cs =>
    if sep.isPrefixOf (c :: cs) ∧ sep ≠ [] then
      [] :: splitCharsAux sep fuel (cs.drop (sep.length - 1))
    else
      match splitCharsAux sep fuel cs with
      | [] => [[c]]
      | t :: ts => (c :: t) :: ts

/-- Entry point of the character splitter: each step consumes at least one
character, so the length of the input is enough fuel. -/
def splitChars (sep cs : List Char) : List (List Char) :=
  splitCharsAux sep cs.length cs

/-- Python str.split with a separator (String.splitOn, embedded through
splitChars so that proofs can evaluate it). -/
def pySplitOn (s sep : String) : List String :=
  (splitChars sep.data s.data).map fun cs => ⟨cs⟩

/-! ## OpenAI request builder (core/agents/openai/request_builder.py) -/

namespace OpenAI

/-- The two OpenAI API pathways (ApiType literal in the source). -/
inductive ApiType
  | responses
  | chat
deriving DecidableEq, Repr

/-- Payload of a responses-API request: keys model, input, and optionally
reasoning {effort}, text {verbosity}, tools, tool_choice.  This payload shape
has no temperature key at all. -/
structure RespPayload where
  model : String
  input : String
  reasoning_effort : Option String := none
  text_verbosity : Option String := none
  tools : Option (List Tool) := none
  tool_choice : Option String := none
deriving DecidableEq, Repr

/-- Payload of a chat-completions request: keys model, messages (a single
user message, embedded as its content string), and optionally
reasoning_effort, temperature, tools, tool_choice. -/
structure ChatPayload where
  model : String
  content : String
  reasoning_effort : Option String := none
  temperature : Option ℚ := none
  tools : Option (List Tool) := none
  tool_choice : Option String := none
deriving DecidableEq, Repr

/-- PreparedRequest of the OpenAI builder: the api tag together with the
payload of the matching shape. -/
inductive PreparedRequest
  | responses (p : RespPayload)
  | chat (p : ChatPayload)
deriving DecidableEq, Repr

/-- The api field of a PreparedRequest. -/
def PreparedRequest.api : PreparedRequest → ApiType
  | .responses _ => .responses
  | .chat _ => .chat

/-- Embeds _build_responses_reasoning_payload: the effort value of the
reasoning payload dict, or none when no reasoning payload is attached. -/
def buildResponsesReasoningPayload (reasoning : ReasoningMode) : Option String :=
  if reasoning = .MINIMAL ∨ reasoning = .LOW ∨ reasoning = .MEDIUM ∨ reasoning = .HIGH then
    some reasoning.value
  else if reasoning = .ENABLED then
    some ReasoningMode.MEDIUM.value
  else
    none

/-- Embeds _build_text_config (a falsy verbosity yields no text config). -/
def buildTextConfig (text_verbosity : Option String) : Option String :=
  match text_verbosity with
  | none => none
  | some v => if v = "" then none else some v

/-- Embeds _build_chat_reasoning_params: the reasoning_effort value attached
on the chat pathway, or none when the params dict is None. -/
def buildChatReasoningParams (model_name : String) (reasoning : ReasoningMode) :
    Option String :=
  if ¬ (pyLower model_name = "o3" ∨ pyLower model_name = "o4-mini") then
    none
  else if reasoning = .ENABLED then
    some "high"
  else if reasoning = .MINIMAL then
    some ReasoningMode.LOW.value
  else if reasoning = .LOW ∨ reasoning = .MEDIUM ∨ reasoning = .HIGH then
    some reasoning.value
  else
    some ReasoningMode.MEDIUM.value

/-- Embeds _should_attach_temperature. -/
def shouldAttachTemperature (model_name : String) (reasoning : ReasoningMode)
    (temperature : Option ℚ) : Bool :=
  match temperature with
  | none => false
  | some _ => reasoning = .TEMPERATURE ∨ pyLower model_name = "gpt-4.1"

/-- Embeds prepare_request of core/agents/openai/request_builder.py.  Tools
are attached exactly when the argument is a non-empty list (Python
truthiness of the tools argument). -/
def prepare_request (model_name content : String) (reasoning : ReasoningMode)
    (temperature : Option ℚ) (tools : Option (List Tool))
    (text_verbosity : Option String) (use_responses_api : Bool) :
    PreparedRequest :=
  let toolsAttached : Option (List Tool) :=
    match tools with
    | none => none
    | some ts => if ts = [] then none else some ts
  if use_responses_api then
    .responses
      { model := model_name
        input := content
        reasoning_effort := buildResponsesReasoningPayload reasoning
        text_verbosity := buildTextConfig text_verbosity
        tools := toolsAttached
        tool_choice := toolsAttached.map fun _ => "auto" }
  else
    .chat
      { model := model_name
        content := content
        reasoning_effort := buildChatReasoningParams model_name reasoning
        temperature :=
          if shouldAttachTemperature model_name reasoning temperature then
            temperature
          else
            none
        tools := toolsAttached
        tool_choice := toolsAttached.map fun _ => "auto" }

/-- Whether a prepared request payload contains the reasoning-effort
parameter (the reasoning payload on the responses pathway, the
reasoning_effort key on the chat pathway). -/
def PreparedRequest.hasEffortParam : PreparedRequest → Bool
  | .responses p => p.reasoning_effort.isSome
  | .chat p => p.reasoning_effort.isSome

/-- Whether a prepared request payload contains the temperature parameter
(the responses payload shape never carries one). -/
def PreparedRequest.hasTemperatureParam : PreparedRequest → Bool
  | .responses _ => false
  | .chat p => p.temperature.isSome

/-- The reasoning-effort value carried by a prepared request payload, if
any. -/
def PreparedRequest.effortParam : PreparedRequest → Option String
  | .responses p => p.reasoning_effort
  | .chat p => p.reasoning_effort

/-- The temperature value carried by a prepared request payload, if any. -/
def PreparedRequest.temperatureParam : PreparedRequest → Option ℚ
  | .responses _ => none
  | .chat p => p.temperature

/-- Follows the claim and the spec §4.1 design rule, for comparison with the
builders: MINIMAL/LOW/MEDIUM/HIGH map to the effort string of the same
name, ENABLED maps to the medium effort string, every other mode omits the
effort parameter. -/
def specEffortMapping : ReasoningMode → Option String
  | .MINIMAL => some "minimal"
  | .LOW => some "low"
  | .MEDIUM => some "medium"
  | .HIGH => some "high"
  | .ENABLED => some "medium"
  | .DISABLED => none
  | .TEMPERATURE => none

/-- The mapping the OpenAI chat builder actually applies for the
effort-capable chat models o3 and o4-mini. -/
def chatModelEffortMapping : ReasoningMode → Option String
  | .ENABLED => some "high"
  | .MINIMAL => some "low"
  | .LOW => some "low"
  | .MEDIUM => some "medium"
  | .HIGH => some "high"
  | .DISABLED => some "medium"
  | .TEMPERATURE => some "medium"

end OpenAI

/-! ## xAI request builder (core/agents/xai/request_builder.py, config.py) -/

namespace Xai

/-- ModelDefaults of core/agents/xai/config.py. -/
structure ModelDefaults where
  default_reasoning : ReasoningMode
  tools_allowed : Bool := true
  reasoning_effort_supported : Bool := false
deriving DecidableEq, Repr

/-- Embeds resolve_model_defaults of core/agents/xai/config.py. -/
def resolve_model_defaults (model_name : String) : ModelDefaults :=
  let normalized := pyLower model_name
  if normalized = "grok-code-fast-1" then
    { default_reasoning := .ENABLED, reasoning_effort_supported := true }
  else if normalized = "grok-4-fast-reasoning" then
    { default_reasoning := .ENABLED, reasoning_effort_supported := true }
  else if normalized = "grok-4-fast-non-reasoning" then
    { default_reasoning := .DISABLED, reasoning_effort_supported := false }
  else if normalized = "grok-4-0709" then
    { default_reasoning := .ENABLED, reasoning_effort_supported := false }
  else
    { default_reasoning := .DISABLED }

/-- Chat-completions payload of the xAI builder. -/
structure Payload where
  model : String
  content : String
  tools : Option (List Tool) := none
  tool_choice : Option String := none
  reasoning_effort : Option String := none
  temperature : Option ℚ := none
deriving DecidableEq, Repr

/-- Embeds _map_reasoning_effort of core/agents/xai/request_builder.py. -/
def mapReasoningEffort (reasoning : ReasoningMode) (defaults : ModelDefaults) :
    Option String :=
  if ¬ defaults.reasoning_effort_supported then
    none
  else if reasoning = .MINIMAL ∨ reasoning = .LOW ∨ reasoning = .MEDIUM ∨
      reasoning = .HIGH then
    some reasoning.value
  else if reasoning = .ENABLED then
    some ReasoningMode.MEDIUM.value
  else
    none

/-- Embeds prepare_request of core/agents/xai/request_builder.py: attaches
tools when allowed and non-empty, the mapped reasoning effort when not None,
and the temperature whenever the argument is not None. -/
def prepare_request (model_name content : String) (reasoning : ReasoningMode)
    (defaults : ModelDefaults) (tools : Option (List Tool))
    (temperature : Option ℚ) : Payload :=
  let toolsAttached : Option (List Tool) :=
    if defaults.tools_allowed then
      match tools with
      | none => none
      | some ts => if ts = [] then none else some ts
    else
      none
  { model := model_name
    content := content
    tools := toolsAttached
    tool_choice := toolsAttached.map fun _ => "auto"
    reasoning_effort := mapReasoningEffort reasoning defaults
    temperature := temperature }

/-- Whether the xAI payload carries the reasoning_effort key. -/
def Payload.hasEffortParam (p : Payload) : Bool :=
  p.reasoning_effort.isSome

/-- Whether the xAI payload carries the temperature key. -/
def Payload.hasTemperatureParam (p : Payload) : Bool :=
  p.temperature.isSome

end Xai

/-! ## Response normalization

Canonical normalized tool-call records shared by the parsers.  Key absence
and a stored None are both embedded as none. -/

/-- A normalized tool-call record: the function shape
{id, type "function", function {name, arguments}} or the custom shape
{id, type "custom", name, input}. -/
inductive ToolCallRec
  | function (id : Option String) (name : Option String) (arguments : Option String)
  | custom (id : Option String) (name : Option String) (input : Option String)
deriving DecidableEq, Repr

/-- ParsedResponse of core/agents/openai/response_parser.py (the xAI parser
additionally carries reasoning fields, which no claim concerns). -/
structure ParsedResponse where
  findings : Option String
  tool_calls : Option (List ToolCallRec)
deriving DecidableEq, Repr

/-- Truthiness of an optional string (Python: None and the empty string are
falsy). -/
def optStrTruthy : Option String → Bool
  | none => false
  | some s => !(s == "")

namespace OpenAI

/-- A content part of a structured output item, after dict normalization:
its type tag and the fields the parser reads. -/
structure Part where
  type : String
  text : Option String := none
  id : Option String := none
  call_id : Option String := none
  name : Option String := none
  arguments : Option String := none
  input : Option String := none
deriving DecidableEq, Repr

/-- An output item of a responses-API response: type tag and content parts. -/
structure OutputItem where
  type : String
  content : List Part := []
deriving DecidableEq, Repr

/-- A responses-API response after dict normalization: the output item list
and the optional provider-supplied aggregate output_text field. -/
structure RespResponse where
  output : List OutputItem := []
  output_text : Option String := none
deriving DecidableEq, Repr

/-- The message of a flat chat-shape response (choices[0].message): content
and tool calls (an absent or None tool_calls attribute is the empty list). -/
structure ChatFunction where
  name : String
  arguments : String
deriving DecidableEq, Repr

/-- A tool-call entry of a flat chat-shape message. -/
structure ChatToolCall where
  id : String
  type : String
  function : ChatFunction
deriving DecidableEq, Repr

/-- The single message of a flat chat-shape response. -/
structure ChatMessage where
  content : Option String := none
  tool_calls : List ChatToolCall := []
deriving DecidableEq, Repr

/-- Embeds _parse_chat_output: findings is the message content when truthy;
tool calls keep only the entries of type "function", each normalized with
its id, function name and arguments; an empty filtered list collapses to
None. -/
def parseChatOutput (m : ChatMessage) : ParsedResponse :=
  let findings : Option String :=
    match m.content with
    | none => none
    | some s => if s = "" then none else some s
  let tool_calls : Option (List ToolCallRec) :=
    if m.tool_calls = [] then
      none
    else
      let normalized :=
        (m.tool_calls.filter fun c => c.type == "function").map fun c =>
          ToolCallRec.function (some c.id) (some c.function.name)
            (some c.function.arguments)
      if normalized = [] then none else some normalized
  { findings := findings, tool_calls := tool_calls }

/-- Embeds the output_text branch of the parts loop: the appended text of a
part, or none when the part is not a truthy output_text part. -/
def partText (p : Part) : Option String :=
  if p.type = "output_text" then
    match p.text with
    | none => none
    | some t => if t = "" then none else some t
  else
    none

/-- Embeds _normalize_tool_call: the call id prefers a truthy id field over
call_id; function_call parts normalize to the function shape with arguments
defaulting to the empty string, custom_tool_call parts to the custom shape;
other part types normalize to None. -/
def normalizeToolCall (p : Part) : Option ToolCallRec :=
  let cid : Option String := if optStrTruthy p.id then p.id else p.call_id
  if p.type = "function_call" then
    some (.function cid p.name (some (p.arguments.getD "")))
  else if p.type = "custom_tool_call" then
    some (.custom cid p.name p.input)
  else
    none

/-- One step of the parts loop of _parse_responses_output, threading the
accumulated text segments and tool calls. -/
def partsStep (acc : List String × List ToolCallRec) (p : Part) :
    List String × List ToolCallRec :=
  match partText p with
  | some t => (acc.1 ++ [t], acc.2)
  | none =>
    match normalizeToolCall p with
    | some c => (acc.1, acc.2 ++ [c])
    | none => acc

/-- One step of the item loop of _parse_responses_output: items whose type
is not "message" are skipped, otherwise their content parts are folded. -/
def itemStep (acc : List String × List ToolCallRec) (item : OutputItem) :
    List String × List ToolCallRec :=
  if item.type ≠ "message" then acc else item.content.foldl partsStep acc

/-- Embeds _parse_responses_output: folds the output items collecting text
segments and tool calls, falls back to the aggregate output_text field when
no text segments were collected, joins segments with the newline separator
and strips the result. -/
def parseResponsesOutput (r : RespResponse) : ParsedResponse :=
  let acc := r.output.foldl itemStep ([], [])
  let text_segments := acc.1
  let tool_calls := acc.2
  let text_segments :=
    if text_segments = [] then
      match r.output_text with
      | none => []
      | some a => if a = "" then [] else [a]
    else
      text_segments
  let findings : Option String :=
    if text_segments = [] then none
    else some (pyStrip (String.intercalate "\n" text_segments))
  { findings := findings
    tool_calls := if tool_calls = [] then none else some tool_calls }

/-- Declarative reading of the text extraction: all truthy output_text parts
of message items, in their order of appearance. -/
def respTexts (r : RespResponse) : List String :=
  (r.output.filter fun i => i.type == "message").flatMap fun i =>
    i.content.filterMap partText

/-- Declarative reading of the tool-call extraction: all normalized
function/custom tool-call parts of message items, in order. -/
def respToolCalls (r : RespResponse) : List ToolCallRec :=
  (r.output.filter fun i => i.type == "message").flatMap fun i =>
    i.content.filterMap normalizeToolCall

end OpenAI

namespace Xai

/-- The function field of an xAI tool call (fields read through _extract,
hence optional). -/
structure ToolCallFunctionIn where
  name : Option String := none
  arguments : Option String := none
deriving DecidableEq, Repr

/-- A tool-call entry of an xAI chat completion message. -/
structure ToolCallIn where
  id : Option String := none
  type : Option String := none
  function : Option ToolCallFunctionIn := none
deriving DecidableEq, Repr

/-- Embeds _normalise_tool_calls of core/agents/xai/response_parser.py: a
falsy input yields None; entries whose type is not "function" are skipped;
the rest keep id, type and the function name/arguments; an empty normalized
list collapses to None. -/
def normaliseToolCalls (tool_calls : List ToolCallIn) : Option (List ToolCallRec) :=
  if tool_calls = [] then
    none
  else
    let normalised :=
      (tool_calls.filter fun c => c.type == some "function").map fun c =>
        let fn := c.function.getD {}
        ToolCallRec.function c.id fn.name fn.arguments
    if normalised = [] then none else some normalised

end Xai

/-! ## Tool manager (agentrules/core/agent_tools/tool_manager.py) -/

/-- An Anthropic-converted tool: {name, description, input_schema
{type, properties, required}}. -/
structure AnthropicTool where
  name : String
  description : String
  schema_type : String
  properties : List (String × String)
  required : List String
deriving DecidableEq, Repr

/-- A Gemini function declaration: the SDK FunctionDeclaration and the
plain-structure fallback carry the same name/description/parameters
content (the fallback stores the schema under the key parameters, the SDK
object under parameters_json_schema). -/
structure GeminiDecl where
  name : String
  description : String
  parameters : ParamsSchema
deriving DecidableEq, Repr

/-- A provider-converted tool: the OpenAI-compatible pass-through shape, the
Anthropic flattened shape, or a Gemini tool wrapping function declarations
(sdkNative records whether the google.genai SDK types were used or the
plain-structure fallback). -/
inductive ProviderTool
  | openaiLike (t : Tool)
  | anthropic (t : AnthropicTool)
  | gemini (sdkNative : Bool) (function_declarations : List GeminiDecl)
deriving DecidableEq, Repr

/-- The provider argument as the converter sees it: one of the five enum
members, or any other runtime value (Python equality against the members
fails for it, reaching the final return). -/
inductive ProviderArg
  | known (p : ModelProvider)
  | other (tag : String)
deriving DecidableEq, Repr

namespace ToolManager

/-- Embeds ToolManager.get_provider_tools: a falsy tool list yields [];
OPENAI/DEEPSEEK/XAI pass the list through; ANTHROPIC flattens each tool to
{name, description, input_schema}; GEMINI wraps each tool in a declaration
object (SDK-native when available, else the plain-structure fallback, both
with the same name/description/parameters content); any other provider
value yields []. -/
def get_provider_tools (tools : Option (List Tool)) (provider : ProviderArg)
    (sdkAvailable : Bool) : List ProviderTool :=
  match tools with
  | none => []
  | some ts =>
    if ts = [] then
      []
    else
      match provider with
      | .known .OPENAI => ts.map ProviderTool.openaiLike
      | .known .ANTHROPIC =>
        ts.map fun t =>
          ProviderTool.anthropic
            { name := t.function.name
              description := t.function.description
              schema_type := "object"
              properties := t.function.parameters.properties
              required := t.function.parameters.required.getD [] }
      | .known .GEMINI =>
        if sdkAvailable then
          ts.map fun t =>
            ProviderTool.gemini true
              [{ name := t.function.name
                 description := t.function.description
                 parameters := t.function.parameters }]
        else
          ts.map fun t =>
            ProviderTool.gemini false
              [{ name := t.function.name
                 description := t.function.description
                 parameters := t.function.parameters }]
      | .known .DEEPSEEK => ts.map ProviderTool.openaiLike
      | .known .XAI => ts.map ProviderTool.openaiLike
      | .other _ => []

end ToolManager

/-- Reconstructs a canonical tool from an Anthropic-converted tool: the
inverse of the Anthropic flattening on canonical inputs. -/
def anthropicToCanonical (t : AnthropicTool) : Tool :=
  { type := "function"
    function :=
      { name := t.name
        description := t.description
        parameters :=
          { type := t.schema_type
            properties := t.properties
            required := some t.required } } }

/-- The canonical tool recoverable from a provider-converted tool:
pass-through tools are returned as-is, Anthropic tools are unflattened,
Gemini tools (whose description of the tool type field is not retained)
yield none. -/
def providerToolToCanonical : ProviderTool → Option Tool
  | .openaiLike t => some t
  | .anthropic t => some (anthropicToCanonical t)
  | .gemini _ _ => none

/-- The function declarations of a Gemini-converted tool, if the tool is
one. -/
def ProviderTool.geminiDecls : ProviderTool → Option (List GeminiDecl)
  | .gemini _ ds => some ds
  | _ => none

/-! ## OpenAI architect (core/agents/openai/architect.py) -/

namespace OpenAI

/-- An OpenAI SDK response: the flat chat shape (embedded as its single
message) or the structured responses shape. -/
inductive SdkResponse
  | chatShape (m : ChatMessage)
  | responsesShape (r : RespResponse)
deriving DecidableEq, Repr

/-- Embeds parse_response of core/agents/openai/response_parser.py: routes
on the executed API.  The chat parser reads response.choices, so applying it
to a responses-shape object raises; the responses parser normalizes any
object through _as_dict, so a chat-shape object parses as an empty dict. -/
def parse_response (response : SdkResponse) (api : ApiType) :
    Except String ParsedResponse :=
  match api, response with
  | .responses, .responsesShape r => .ok (parseResponsesOutput r)
  | .responses, .chatShape _ => .ok (parseResponsesOutput {})
  | .chat, .chatShape m => .ok (parseChatOutput m)
  | .chat, .responsesShape _ => .error "AttributeError: choices"

/-- The construction-time state of an OpenAIArchitect that analyze reads. -/
structure ArchitectConfig where
  model_name : String
  reasoning : ReasoningMode
  temperature : Option ℚ := none
  text_verbosity : Option String := none
  use_responses_api : Bool := false
  name : Option String := none
deriving DecidableEq, Repr

/-- The result dict of OpenAIArchitect.analyze: the success shape
{agent, findings, tool_calls} or the error shape {agent, error}. -/
inductive AnalyzeResult
  | success (agent : String) (findings : Option String)
      (tool_calls : Option (List ToolCallRec))
  | failure (agent : String) (error : String)
deriving DecidableEq, Repr

/-- The agent field of an analyze result. -/
def AnalyzeResult.agent : AnalyzeResult → String
  | .success a _ _ => a
  | .failure a _ => a

/-- The body of OpenAIArchitect.analyze inside its try block.  Prompt
formatting (which may raise on a malformed template) is abstracted as
contentOutcome; dispatch performs the only I/O and may raise; request
building and parsing are the embedded pure functions. -/
def analyzeAttempt (cfg : ArchitectConfig)
    (contentOutcome : Except String String) (tools : Option (List Tool))
    (dispatch : PreparedRequest → Except String SdkResponse) :
    Except String ParsedResponse := do
  let content ← contentOutcome
  let prepared := prepare_request cfg.model_name content cfg.reasoning
    cfg.temperature tools cfg.text_verbosity cfg.use_responses_api
  let response ← dispatch prepared
  parse_response response prepared.api

/-- The try/except wrapper of analyze around the body steps. -/
def analyze (cfg : ArchitectConfig) (contentOutcome : Except String String)
    (tools : Option (List Tool))
    (dispatch : PreparedRequest → Except String SdkResponse) : AnalyzeResult :=
  let agent_name := cfg.name.getD "OpenAI Architect"
  match analyzeAttempt cfg contentOutcome tools dispatch with
  | .ok parsed => .success agent_name parsed.findings parsed.tool_calls
  | .error e => .failure agent_name e

end OpenAI

/-! ## Phase units (core/analysis/phase_2.py, phase_3.py, events.py) -/

namespace Analysis

/-- An agent definition dict parsed from the Phase 2 plan. -/
structure Agent where
  id : Option String := none
  name : Option String := none
  description : Option String := none
  responsibilities : List String := []
  file_assignments : List String := []
deriving DecidableEq, Repr

/-- An agent summary inside the agent_plan event payload. -/
structure AgentSummary where
  id : String
  name : String
  description : Option String
  files : List String
deriving DecidableEq, Repr

/-- Payload of an analysis event: the agent_plan payload {agents} or the
per-agent lifecycle payload {id, name, description} plus the extras of the
specific event type (the wall-clock duration of completed/failed events is
outside the embedding). -/
inductive EventPayload
  | plan (agents : List AgentSummary)
  | agentInfo (id : Option String) (name : Option String)
      (description : Option String) (file_count : Option Nat)
      (files : Option (List String)) (error : Option String)
deriving DecidableEq, Repr

/-- AnalysisEvent of core/analysis/events.py. -/
structure AnalysisEvent where
  phase : String
  type : String
  payload : EventPayload
deriving DecidableEq, Repr

/-- The architect response consumed by Phase 2 (create_analysis_plan result:
a plan or an error). -/
structure PlanResponse where
  plan : Option String := none
  error : Option String := none
deriving DecidableEq, Repr

/-- The result dict of Phase2Analysis.run.  The phase field is never written
by Phase 2 (its dicts carry no phase label). -/
structure Phase2Result where
  plan : Option String := none
  error : Option String := none
  agents : Option (List Agent) := none
  phase : Option String := none
deriving DecidableEq, Repr

/-- Embeds the summary construction of Phase2Analysis._publish_agent_plan
for the agent at 1-based position idx. -/
def summarizeAgent (idx : Nat) (a : Agent) : AgentSummary :=
  let agent_id :=
    if optStrTruthy a.id then a.id.getD "" else "agent_" ++ toString idx
  { id := agent_id
    name := if optStrTruthy a.name then a.name.getD "" else agent_id
    description := a.description
    files := a.file_assignments }

/-- Embeds Phase2Analysis._publish_agent_plan: the single agent_plan event
carrying the summaries of the given agents. -/
def publishAgentPlan (phase : String) (agents : List Agent) : AnalysisEvent :=
  { phase := phase
    type := "agent_plan"
    payload := .plan ((agents.enumFrom 1).map fun p => summarizeAgent p.1 p.2) }

/-- Embeds Phase2Analysis.run.  The work up to and including the architect
call (prompt formatting plus create_analysis_plan) is abstracted as outcome;
the plan parsers (core/utils/parsers, not part of the source tree) are
parameters, the fallback one fallible since its call is wrapped in its own
try block.  Returns the result dict together with the published events. -/
def phase2Run (outcome : Except String PlanResponse)
    (parsePrimary : String → List Agent)
    (parseFallback : String → Except String (List Agent)) :
    Phase2Result × List AnalysisEvent :=
  match outcome with
  | .error e => ({ error := some e }, [])
  | .ok resp =>
    if optStrTruthy resp.error then
      ({ plan := resp.plan, error := resp.error }, [])
    else
      let plan_text := resp.plan.getD ""
      let agents := parsePrimary plan_text
      if agents ≠ [] then
        ({ plan := resp.plan, error := resp.error, agents := some agents },
          [publishAgentPlan "phase2" agents])
      else
        match parseFallback plan_text with
        | .ok fb =>
          if fb ≠ [] then
            ({ plan := resp.plan, error := resp.error, agents := some fb },
              [publishAgentPlan "phase2" fb])
          else
            ({ plan := resp.plan, error := resp.error, agents := some [] }, [])
        | .error _ =>
          ({ plan := resp.plan, error := resp.error, agents := some [] }, [])

/-- The three hardcoded fallback agents of Phase3Analysis.run. -/
def fallbackAgents : List Agent :=
  [ { id := some "agent_1"
      name := some "Code Analysis Agent"
      description := some "Analyzes code quality, patterns, and implementation details" }
  , { id := some "agent_2"
      name := some "Dependency Mapping Agent"
      description := some "Maps dependencies between files and modules" }
  , { id := some "agent_3"
      name := some "Architecture Agent"
      description := some "Analyzes overall architecture and design patterns" } ]

/-- Substring containment (Python: pat in s), via splitOn: a non-empty
pattern occurs in s exactly when splitting on it yields more than one
part. -/
def strContains (s pat : String) : Bool :=
  (pySplitOn s pat).length != 1

/-- The source-extension filter of the Phase 3 fallback: the line mentions
one of the five source suffixes (substring containment, as in the code). -/
def lineHasSourceExt (line : String) : Bool :=
  strContains line ".py" || strContains line ".js" || strContains line ".ts" ||
    strContains line ".jsx" || strContains line ".tsx"

/-- The path extracted from a matching tree line: the last space-separated
token of the stripped line. -/
def treeFilePath (line : String) : String :=
  (pySplitOn (pyStrip line) " ").getLast?.getD ""

/-- All source file paths extracted from the tree (the all_file_paths loop
of Phase3Analysis.run). -/
def phase3AllFilePaths (tree : List String) : List String :=
  (tree.filter lineHasSourceExt).map treeFilePath

/-- Embeds the agent-definition resolution of Phase3Analysis.run: when the
plan supplied no agents the three fallback agents are used, each assigned
all source files extracted from the tree. -/
def phase3ResolveAgents (agentsIn : List Agent) (tree : List String) :
    List Agent :=
  if agentsIn = [] then
    fallbackAgents.map fun a => { a with file_assignments := phase3AllFilePaths tree }
  else
    agentsIn

/-- The payload id of a Phase 3 lifecycle event: agent id when truthy, else
the agent name field as stored. -/
def payloadId (a : Agent) : Option String :=
  if optStrTruthy a.id then a.id else a.name

/-- The id field of an event payload (none for agent_plan payloads). -/
def eventAgentId (e : AnalysisEvent) : Option String :=
  match e.payload with
  | .plan _ => none
  | .agentInfo i _ _ _ _ _ => i

/-- Whether the registration step of Phase3Analysis.run survives reading
this agent: the id key exists and splitting it on the underscore has a part
at index 1. -/
def agentIdOk (a : Agent) : Bool :=
  match a.id with
  | none => false
  | some s => decide ((pySplitOn s "_").length ≥ 2)

/-- The agent_registered event for an agent (extra: file_count). -/
def registeredEvent (a : Agent) : AnalysisEvent :=
  { phase := "phase3"
    type := "agent_registered"
    payload := .agentInfo (payloadId a) a.name a.description
      (some a.file_assignments.length) none none }

/-- The agent_started event for an agent (extra: files). -/
def startedEvent (a : Agent) : AnalysisEvent :=
  { phase := "phase3"
    type := "agent_started"
    payload := .agentInfo (payloadId a) a.name a.description none
      (some a.file_assignments) none }

/-- The agent_completed event for an agent (extra: files; duration outside
the embedding). -/
def completedEvent (a : Agent) : AnalysisEvent :=
  { phase := "phase3"
    type := "agent_completed"
    payload := .agentInfo (payloadId a) a.name a.description none
      (some a.file_assignments) none }

/-- The agent_failed event for an agent (extras: files and error string;
duration outside the embedding). -/
def failedEvent (a : Agent) (e : String) : AnalysisEvent :=
  { phase := "phase3"
    type := "agent_failed"
    payload := .agentInfo (payloadId a) a.name a.description none
      (some a.file_assignments) (some e) }

/-- The registration loop of Phase3Analysis.run.  Each iteration first reads
agent_def, splitting its id on the underscore and indexing part 1 (a missing
id raises KeyError, an id without an underscore raises IndexError, aborting
the phase), then publishes agent_registered.  Returns the events published
so far alongside the failure, so that an abort keeps the prior events. -/
def registerAgents : List Agent → List AnalysisEvent →
    Except (String × List AnalysisEvent) (List AnalysisEvent)
  | [], acc => .ok acc
  | a :: rest, acc =>
    match a.id with
    | none => .error ("KeyError: id", acc)
    | some s =>
      if (pySplitOn s "_").length < 2 then
        .error ("IndexError: list index out of range", acc)
      else
        registerAgents rest (acc ++ [registeredEvent a])

/-- The context bundle built for one agent.  File reading (tolerant of
missing files, trying the raw and the stripped path) is abstracted as a
total lookup from path to optional content. -/
structure AgentContext where
  agent_name : String
  agent_role : String
  assigned_files : List String
  file_contents : List (String × String)
  tree_structure : List String
deriving DecidableEq, Repr

/-- Builds the context dict of Phase3Analysis.run for one agent. -/
def buildContext (fileRead : String → Option String) (tree : List String)
    (a : Agent) : AgentContext :=
  { agent_name := a.name.getD "Analysis Agent"
    agent_role := a.description.getD "Analyzing the project"
    assigned_files := a.file_assignments
    file_contents :=
      a.file_assignments.filterMap fun p => (fileRead p).map fun c => (p, c)
    tree_structure := tree }

/-- Embeds Phase3Analysis._execute_agent for one agent: publishes
agent_started, runs the analyze call, publishes agent_completed on success
or agent_failed before re-raising on failure. -/
def executeAgent {α : Type} (analyze : Agent → AgentContext → Except String α)
    (ctx : AgentContext) (a : Agent) :
    List AnalysisEvent × Except String α :=
  match analyze a ctx with
  | .ok r => ([startedEvent a, completedEvent a], .ok r)
  | .error e => ([startedEvent a, failedEvent a e], .error e)

/-- The first exception among the joined task outcomes, in task order (the
asyncio.gather join propagates the exception of a failing task). -/
def firstTaskError {α : Type} : List (Except String α) → Option String
  | [] => none
  | .ok _ :: rest => firstTaskError rest
  | .error e :: _ => some e

/-- The result dict of Phase3Analysis.run: the phase label is present on
both the success and the error branch. -/
structure Phase3Result (α : Type) where
  phase : String
  findings : Option (List α) := none
  error : Option String := none
deriving DecidableEq, Repr

/-- Embeds Phase3Analysis.run.  The architect analyze calls are abstracted
as a function from agent and context to a fallible result; the cooperative
fan-out/join is embedded by running every task and joining: all lifecycle
events are published, and a failing task surfaces as the phase-level error.
Returns the result, the published events, and the agents whose architect
was invoked. -/
def phase3Run {α : Type} (planAgents : Option (List Agent)) (tree : List String)
    (fileRead : String → Option String)
    (analyze : Agent → AgentContext → Except String α) :
    Phase3Result α × List AnalysisEvent × List Agent :=
  let agent_definitions := phase3ResolveAgents (planAgents.getD []) tree
  match registerAgents agent_definitions [] with
  | .error (msg, events) =>
    ({ phase := "Deep Analysis", error := some msg }, events, [])
  | .ok events =>
    let active := agent_definitions.filter fun a => !a.file_assignments.isEmpty
    let tasks := active.map fun a =>
      (a, executeAgent analyze (buildContext fileRead tree a) a)
    let allEvents := events ++ tasks.flatMap fun t => t.2.1
    let outcomes := tasks.map fun t => t.2.2
    let result : Phase3Result α :=
      match firstTaskError outcomes with
      | some e => { phase := "Deep Analysis", error := some e }
      | none =>
        { phase := "Deep Analysis"
          findings := some (outcomes.filterMap fun o => o.toOption) }
    (result, allEvents, active)

/-- The agents Phase 3 actually builds tasks for: those with a non-empty
file assignment list (the skip branch of the task loop). -/
def phase3Active (agents : List Agent) : List Agent :=
  agents.filter fun b => !b.file_assignments.isEmpty

/-- The lifecycle events published while executing one agent task. -/
def agentTaskEvents {α : Type}
    (analyze : Agent → AgentContext → Except String α)
    (fileRead : String → Option String) (tree : List String) (b : Agent) :
    List AnalysisEvent :=
  (executeAgent analyze (buildContext fileRead tree b) b).1

/-- The outcome of one agent task. -/
def agentTaskOutcome {α : Type}
    (analyze : Agent → AgentContext → Except String α)
    (fileRead : String → Option String) (tree : List String) (b : Agent) :
    Except String α :=
  (executeAgent analyze (buildContext fileRead tree b) b).2

end Analysis

end RulesArchitect

/-! ## Theorems settling the claims -/

namespace RulesArchitect

/-- Claim C1, counterexample: the claim fails as stated.  For the supported
xAI model grok-code-fast-1 (reasoning effort supported) in MEDIUM mode with
temperature argument 7/10, the xAI prepare_request payload carries both the
reasoning_effort and the temperature parameter; likewise the OpenAI chat
builder for the supported model o3 in TEMPERATURE mode. -/
theorem C1_both_params_counterexample :
    ((Xai.prepare_request "grok-code-fast-1" "analyze" ReasoningMode.MEDIUM
        (Xai.resolve_model_defaults "grok-code-fast-1") none
        (some (7 / 10))).hasEffortParam = true
      ∧ (Xai.prepare_request "grok-code-fast-1" "analyze" ReasoningMode.MEDIUM
        (Xai.resolve_model_defaults "grok-code-fast-1") none
        (some (7 / 10))).hasTemperatureParam = true)
    ∧ ((OpenAI.prepare_request "o3" "analyze" ReasoningMode.TEMPERATURE
        (some (7 / 10)) none none false).hasEffortParam = true
      ∧ (OpenAI.prepare_request "o3" "analyze" ReasoningMode.TEMPERATURE
        (some (7 / 10)) none none false).hasTemperatureParam = true) := by
  refine ⟨⟨rfl, rfl⟩, rfl, rfl⟩

/-- Claim C1, amended: with a None temperature argument both builders attach
at most one of the reasoning-effort and temperature parameters, and the
OpenAI responses pathway never attaches a temperature for any argument; the
builders are total functions of their inputs (they cannot raise).  With a
non-None temperature the xAI builder attaches it unconditionally and the
OpenAI chat builder attaches it for TEMPERATURE mode or gpt-4.1, so
effort-capable combinations can receive both parameters. -/
theorem C1_amended_at_most_one_tuning_param (model content : String)
    (reasoning : ReasoningMode) (tools : Option (List Tool))
    (tv : Option String) (b : Bool) (d : Xai.ModelDefaults) (temp : Option ℚ) :
    ((OpenAI.prepare_request model content reasoning none tools tv b).hasEffortParam
        && (OpenAI.prepare_request model content reasoning none tools tv b).hasTemperatureParam)
      = false
    ∧ ((Xai.prepare_request model content reasoning d tools none).hasEffortParam
        && (Xai.prepare_request model content reasoning d tools none).hasTemperatureParam)
      = false
    ∧ (OpenAI.prepare_request model content reasoning temp tools tv
        true).hasTemperatureParam = false := by
  refine ⟨?_, ?_, ?_⟩
  · cases b <;>
      simp [OpenAI.prepare_request, OpenAI.PreparedRequest.hasEffortParam,
        OpenAI.PreparedRequest.hasTemperatureParam, OpenAI.shouldAttachTemperature]
  · simp [Xai.prepare_request, Xai.Payload.hasEffortParam,
      Xai.Payload.hasTemperatureParam]
  · simp [OpenAI.prepare_request, OpenAI.PreparedRequest.hasTemperatureParam]

/-- Claim C2, counterexample: the claim fails on the OpenAI chat builder for
the effort-capable model o3.  ENABLED maps to the high effort string rather
than medium, DISABLED does not omit the effort parameter, and MINIMAL maps
to low rather than the effort string of the same name. -/
theorem C2_chat_effort_counterexample :
    (OpenAI.prepare_request "o3" "analyze" ReasoningMode.ENABLED none none none
        false).effortParam = some "high"
    ∧ some "high" ≠ some ReasoningMode.MEDIUM.value
    ∧ (OpenAI.prepare_request "o3" "analyze" ReasoningMode.DISABLED none none
        none false).effortParam = some "medium"
    ∧ (OpenAI.prepare_request "o3" "analyze" ReasoningMode.MINIMAL none none
        none false).effortParam = some "low"
    ∧ ("low" : String) ≠ ReasoningMode.MINIMAL.value := by
  refine ⟨rfl, by decide, rfl, rfl, by decide⟩

/-- Claim C2, amended: the xAI builder (on effort-supported models) and the
OpenAI responses builder follow the claimed mapping exactly — the four
effort modes map to the effort string of the same name, ENABLED maps to
medium, everything else (and every unsupported model) omits the parameter —
and TEMPERATURE mode attaches the numeric temperature (with effort omitted
on temperature-only models such as gpt-4.1).  The OpenAI chat builder for
o3/o4-mini instead maps ENABLED to high, MINIMAL to low, and
DISABLED/TEMPERATURE to medium, never omitting the effort parameter for
those two models; other chat models omit it. -/
theorem C2_amended_effort_mapping (r dr : ReasoningMode) (ta : Bool)
    (model content : String) (tools : Option (List Tool)) (tv : Option String)
    (d : Xai.ModelDefaults) (t : ℚ) :
    Xai.mapReasoningEffort r
        { default_reasoning := dr, tools_allowed := ta,
          reasoning_effort_supported := true } = OpenAI.specEffortMapping r
    ∧ Xai.mapReasoningEffort r
        { default_reasoning := dr, tools_allowed := ta,
          reasoning_effort_supported := false } = none
    ∧ OpenAI.buildResponsesReasoningPayload r = OpenAI.specEffortMapping r
    ∧ OpenAI.buildChatReasoningParams "o3" r = OpenAI.chatModelEffortMapping r
    ∧ OpenAI.buildChatReasoningParams "o4-mini" r =
        OpenAI.chatModelEffortMapping r
    ∧ (pyLower model ≠ "o3" → pyLower model ≠ "o4-mini" →
        OpenAI.buildChatReasoningParams model r = none)
    ∧ (Xai.prepare_request model content ReasoningMode.TEMPERATURE d tools
        (some t)).temperature = some t
    ∧ (OpenAI.prepare_request "gpt-4.1" content ReasoningMode.TEMPERATURE
        (some t) tools tv false).temperatureParam = some t
    ∧ (OpenAI.prepare_request "gpt-4.1" content ReasoningMode.TEMPERATURE
        (some t) tools tv false).effortParam = none := by
  refine ⟨?_, ?_, ?_, ?_, ?_, ?_, ?_, ?_, ?_⟩
  · cases r <;> rfl
  · cases r <;> rfl
  · cases r <;> rfl
  · cases r <;> rfl
  · cases r <;> rfl
  · intro h1 h2
    simp [OpenAI.buildChatReasoningParams, h1, h2]
  · rfl
  · rfl
  · rfl

/-- Claim C2, amended, witness: the amended mapping evaluated at a chat
model outside {o3, o4-mini}, discharging the model hypotheses at gpt-4o
with ENABLED mode. -/
theorem C2_amended_effort_mapping_witness :
    OpenAI.buildChatReasoningParams "gpt-4o" ReasoningMode.ENABLED = none :=
  (C2_amended_effort_mapping ReasoningMode.ENABLED ReasoningMode.ENABLED true
    "gpt-4o" "analyze" none none { default_reasoning := .ENABLED }
    (7 / 10)).2.2.2.2.2.1 (by decide) (by decide)

/-- Claim C4, counterexample: the claim fails on Phase 2.  When the body of
Phase2Analysis.run raises (embedded as the error outcome of its architect
step), the returned mapping carries the error string but no phase label. -/
theorem C4_phase2_missing_label_counterexample :
    Analysis.phase2Run (.error "boom") (fun _ => []) (fun _ => .ok []) =
      ({ plan := none, error := some "boom", agents := none, phase := none },
        [])
    ∧ (Analysis.phase2Run (.error "boom") (fun _ => [])
        (fun _ => .ok [])).1.phase = none := by
  exact ⟨rfl, rfl⟩

/-- Claim C4, amended: an uncaught exception inside a phase run is caught at
the phase boundary and returned as an error mapping rather than
propagating; Phase 3 labels it with the phase (its result carries the Deep
Analysis label on every path), while Phase 2 returns {error} with no phase
label. -/
theorem C4_amended_phase_boundary_error_shapes :
    (∀ (e : String) (pp : String → List Analysis.Agent)
        (pf : String → Except String (List Analysis.Agent)),
      Analysis.phase2Run (.error e) pp pf =
        ({ plan := none, error := some e, agents := none, phase := none }, []))
    ∧ (∀ (α : Type) (pa : Option (List Analysis.Agent)) (tree : List String)
        (fr : String → Option String)
        (an : Analysis.Agent → Analysis.AgentContext → Except String α),
      ((Analysis.phase3Run pa tree fr an).1).phase = "Deep Analysis") := by
  constructor
  · intro e pp pf
    rfl
  · intro α pa tree fr an
    simp only [Analysis.phase3Run]
    split
    · rfl
    · split <;> rfl

/-- A truthy output_text part is not a tool-call part: the two branches of
the parts loop are disjoint. -/
theorem partText_isSome_normalize (p : OpenAI.Part) (t : String)
    (h : OpenAI.partText p = some t) : OpenAI.normalizeToolCall p = none := by
  unfold OpenAI.partText at h
  by_cases hty : p.type = "output_text"
  · unfold OpenAI.normalizeToolCall
    rw [hty]
    rw [if_neg (by decide : ¬ ("output_text" : String) = "function_call"),
      if_neg (by decide : ¬ ("output_text" : String) = "custom_tool_call")]
  · simp [hty] at h

/-- The parts loop collects exactly the truthy output_text texts and the
normalized tool calls, in order. -/
theorem foldl_partsStep_eq (ps : List OpenAI.Part)
    (acc : List String × List ToolCallRec) :
    ps.foldl OpenAI.partsStep acc =
      (acc.1 ++ ps.filterMap OpenAI.partText,
        acc.2 ++ ps.filterMap OpenAI.normalizeToolCall) := by
  induction ps generalizing acc with
  | nil => simp
  | cons p ps ih =>
    rw [List.foldl_cons, ih]
    cases hpt : OpenAI.partText p with
    | some t =>
      have hn := partText_isSome_normalize p t hpt
      simp [OpenAI.partsStep, hpt, hn]
    | none =>
      cases hnc : OpenAI.normalizeToolCall p with
      | some c => simp [OpenAI.partsStep, hpt, hnc]
      | none => simp [OpenAI.partsStep, hpt, hnc]

/-- The item loop collects exactly the texts and tool calls of the message
items, in order. -/
theorem foldl_itemStep_eq (items : List OpenAI.OutputItem)
    (acc : List String × List ToolCallRec) :
    items.foldl OpenAI.itemStep acc =
      (acc.1 ++ (items.filter fun i => i.type == "message").flatMap
          (fun i => i.content.filterMap OpenAI.partText),
        acc.2 ++ (items.filter fun i => i.type == "message").flatMap
          (fun i => i.content.filterMap OpenAI.normalizeToolCall)) := by
  induction items generalizing acc with
  | nil => simp
  | cons i items ih =>
    rw [List.foldl_cons, ih]
    by_cases hty : i.type = "message"
    · simp [OpenAI.itemStep, hty, foldl_partsStep_eq]
    · simp [OpenAI.itemStep, hty]

/-- Claim C5: on a structured output-item response, parse_response yields as
findings the newline-concatenation of all truthy output_text parts of its
message items in their order of appearance (stripped at the edges); with
two parts Hello and world the findings are the string Hello, newline,
world; and with no text parts it falls back to the provider-supplied
aggregate output_text field. -/
theorem C5_responses_findings_concatenation :
    (∀ r : OpenAI.RespResponse,
      (OpenAI.parseResponsesOutput r).findings =
        (if OpenAI.respTexts r = [] then
          match r.output_text with
          | none => none
          | some a => if a = "" then none else some (pyStrip a)
        else
          some (pyStrip (String.intercalate "\n" (OpenAI.respTexts r)))))
    ∧ (OpenAI.parseResponsesOutput
        { output := [{ type := "message"
                       content := [{ type := "output_text", text := some "Hello" },
                                   { type := "output_text", text := some "world" }] }]
          output_text := none }).findings = some "Hello\nworld"
    ∧ (OpenAI.parseResponsesOutput
        { output := [{ type := "message", content := [] }]
          output_text := some "aggregate text" }).findings =
      some "aggregate text" := by
  refine ⟨?_, rfl, rfl⟩
  intro r
  have htx :
      (r.output.filter fun i => i.type == "message").flatMap
        (fun i => i.content.filterMap OpenAI.partText) = OpenAI.respTexts r := rfl
  simp only [OpenAI.parseResponsesOutput, foldl_itemStep_eq, List.nil_append, htx]
  by_cases h : OpenAI.respTexts r = []
  · cases ho : r.output_text with
    | none => simp [h, ho]
    | some a =>
      by_cases ha : a = ""
      · simp [h, ho, ha]
      · simp only [h, ho, ha, if_true, if_false, ite_false, ite_true]
        simp [String.intercalate]
        rfl
  · simp [h]

/-- Claim C6: a flat chat-shape message with a single function tool call
parses to exactly one normalized record with the same id, function name and
arguments (for the OpenAI chat parser and the xAI normalizer alike), and
every record either parser emits stems from an entry of type function in
the original message — entries of any other type are dropped. -/
theorem C6_single_function_tool_call :
    (∀ (content : Option String) (id n args : String),
      (OpenAI.parseChatOutput
        { content := content
          tool_calls := [{ id := id, type := "function"
                           function := { name := n, arguments := args } }] }).tool_calls
        = some [ToolCallRec.function (some id) (some n) (some args)])
    ∧ (∀ (m : OpenAI.ChatMessage) (l : List ToolCallRec) (tc : ToolCallRec),
        (OpenAI.parseChatOutput m).tool_calls = some l → tc ∈ l →
        ∃ c ∈ m.tool_calls, c.type = "function" ∧
          tc = ToolCallRec.function (some c.id) (some c.function.name)
            (some c.function.arguments))
    ∧ (∀ (xid xname xargs : Option String),
      Xai.normaliseToolCalls
        [{ id := xid, type := some "function"
           function := some { name := xname, arguments := xargs } }]
        = some [ToolCallRec.function xid xname xargs])
    ∧ (∀ (calls : List Xai.ToolCallIn) (l : List ToolCallRec) (tc : ToolCallRec),
        Xai.normaliseToolCalls calls = some l → tc ∈ l →
        ∃ c ∈ calls, c.type = some "function" ∧
          tc = ToolCallRec.function c.id (c.function.getD {}).name
            (c.function.getD {}).arguments) := by
  refine ⟨fun content id n args => rfl, ?_, fun xid xname xargs => rfl, ?_⟩
  · intro m l tc hl htc
    unfold OpenAI.parseChatOutput at hl
    by_cases h0 : m.tool_calls = []
    · simp [h0] at hl
    · simp only [if_neg h0] at hl
      by_cases h1 :
          ((m.tool_calls.filter fun c => c.type == "function").map fun c =>
            ToolCallRec.function (some c.id) (some c.function.name)
              (some c.function.arguments)) = []
      · rw [if_pos h1] at hl
        exact absurd hl (by simp)
      · rw [if_neg h1] at hl
        have hl2 := Option.some.inj hl
        rw [← hl2] at htc
        obtain ⟨c, hc, hceq⟩ := List.mem_map.mp htc
        obtain ⟨hcmem, hctype⟩ := List.mem_filter.mp hc
        exact ⟨c, hcmem, by simpa using hctype, hceq.symm⟩
  · intro calls l tc hl htc
    unfold Xai.normaliseToolCalls at hl
    by_cases h0 : calls = []
    · simp [h0] at hl
    · simp only [if_neg h0] at hl
      by_cases h1 :
          ((calls.filter fun c => c.type == some "function").map fun c =>
            ToolCallRec.function c.id (c.function.getD {}).name
              (c.function.getD {}).arguments) = []
      · rw [if_pos h1] at hl
        exact absurd hl (by simp)
      · rw [if_neg h1] at hl
        have hl2 := Option.some.inj hl
        rw [← hl2] at htc
        obtain ⟨c, hc, hceq⟩ := List.mem_map.mp htc
        obtain ⟨hcmem, hctype⟩ := List.mem_filter.mp hc
        exact ⟨c, hcmem, by simpa using hctype, hceq.symm⟩

/-- Claim C6, witness: the singleton-call conjuncts evaluated at the
repository test inputs, and the drop conjunct discharged on a two-entry
list with one non-function entry. -/
theorem C6_single_function_tool_call_witness :
    (OpenAI.parseChatOutput
      { content := none
        tool_calls := [{ id := "tool_1", type := "function"
                         function := { name := "tavily_web_search"
                                       arguments := "query: Flask" } }] }).tool_calls
      = some [ToolCallRec.function (some "tool_1") (some "tavily_web_search")
          (some "query: Flask")]
    ∧ ∃ c ∈ [({ id := some "call_9", type := some "function"
                function := some { name := some "search", arguments := some "{}" } } :
                Xai.ToolCallIn),
             { id := some "call_10", type := some "custom" }],
        c.type = some "function" ∧
          ToolCallRec.function (some "call_9") (some "search") (some "{}")
            = ToolCallRec.function c.id (c.function.getD {}).name
              (c.function.getD {}).arguments := by
  constructor
  · exact (C6_single_function_tool_call).1 none "tool_1" "tavily_web_search" "query: Flask"
  · exact (C6_single_function_tool_call).2.2.2
      [{ id := some "call_9", type := some "function"
         function := some { name := some "search", arguments := some "{}" } },
       { id := some "call_10", type := some "custom" }]
      [ToolCallRec.function (some "call_9") (some "search") (some "{}")]
      (ToolCallRec.function (some "call_9") (some "search") (some "{}"))
      rfl (by simp)

/-- Claim C3: the analyze operation of the OpenAI architect never raises —
whenever any step of its body (prompt formatting, request preparation,
dispatch, or parsing) fails, it returns the error-shaped mapping {agent,
error} with the agent name and the exception string, and on success it
returns the {agent, findings, tool_calls} mapping; the agent name is
present on every path. -/
theorem C3_analyze_never_raises (cfg : OpenAI.ArchitectConfig)
    (co : Except String String) (tools : Option (List Tool))
    (dispatch : OpenAI.PreparedRequest → Except String OpenAI.SdkResponse) :
    (∀ e, OpenAI.analyzeAttempt cfg co tools dispatch = .error e →
      OpenAI.analyze cfg co tools dispatch =
        .failure (cfg.name.getD "OpenAI Architect") e)
    ∧ (∀ p, OpenAI.analyzeAttempt cfg co tools dispatch = .ok p →
      OpenAI.analyze cfg co tools dispatch =
        .success (cfg.name.getD "OpenAI Architect") p.findings p.tool_calls)
    ∧ (∀ e, co = .error e →
      OpenAI.analyze cfg co tools dispatch =
        .failure (cfg.name.getD "OpenAI Architect") e)
    ∧ (OpenAI.analyze cfg co tools dispatch).agent =
      cfg.name.getD "OpenAI Architect" := by
  refine ⟨?_, ?_, ?_, ?_⟩
  · intro e he
    simp [OpenAI.analyze, he]
  · intro p hp
    simp [OpenAI.analyze, hp]
  · intro e he
    subst he
    rfl
  · unfold OpenAI.analyze
    cases OpenAI.analyzeAttempt cfg co tools dispatch <;> rfl

/-- Claim C3, witness: a dispatch failure (connection error) on the o3
architect is converted into the error-shaped result, evaluated
concretely. -/
theorem C3_analyze_never_raises_witness :
    OpenAI.analyze
      { model_name := "o3", reasoning := .HIGH }
      (.ok "prompt") none (fun _ => .error "ConnectionError") =
      .failure "OpenAI Architect" "ConnectionError" :=
  (C3_analyze_never_raises { model_name := "o3", reasoning := .HIGH }
    (.ok "prompt") none (fun _ => .error "ConnectionError")).1
    "ConnectionError" rfl

/-- Claim C7: tool conversion is the identity for OPENAI, DEEPSEEK and XAI;
the Anthropic flattening loses nothing — on canonical tools (function type,
object parameter schema, required list present) the original tool is
reconstructible from the converted one; the Gemini conversion preserves the
name and the full parameter schema of every tool under both the SDK-native
and the plain-structure fallback branch; any provider value outside the
enumerated set yields the empty tool list. -/
theorem C7_tool_conversion_lossless (ts : List Tool) (b : Bool) :
    ToolManager.get_provider_tools (some ts) (.known .OPENAI) b =
      ts.map ProviderTool.openaiLike
    ∧ ToolManager.get_provider_tools (some ts) (.known .DEEPSEEK) b =
      ts.map ProviderTool.openaiLike
    ∧ ToolManager.get_provider_tools (some ts) (.known .XAI) b =
      ts.map ProviderTool.openaiLike
    ∧ ((∀ t ∈ ts, t.type = "function" ∧ t.function.parameters.type = "object"
          ∧ t.function.parameters.required.isSome) →
        (ToolManager.get_provider_tools (some ts) (.known .ANTHROPIC) b).map
          providerToolToCanonical = ts.map some)
    ∧ ((ToolManager.get_provider_tools (some ts) (.known .GEMINI) b).map
        ProviderTool.geminiDecls =
      ts.map fun t =>
        some [{ name := t.function.name, description := t.function.description,
                parameters := t.function.parameters }])
    ∧ (∀ tag, ToolManager.get_provider_tools (some ts) (.other tag) b = [])
    ∧ (∀ tag p, ToolManager.get_provider_tools none p b = []
        ∧ ToolManager.get_provider_tools (some []) (.known tag) b = []) := by
  refine ⟨?_, ?_, ?_, ?_, ?_, ?_, ?_⟩
  · cases ts <;> simp [ToolManager.get_provider_tools]
  · cases ts <;> simp [ToolManager.get_provider_tools]
  · cases ts <;> simp [ToolManager.get_provider_tools]
  · intro h
    cases hts : ts with
    | nil => simp [ToolManager.get_provider_tools]
    | cons t0 rest =>
      rw [← hts]
      have hne : ¬ ts = [] := by rw [hts]; exact List.cons_ne_nil t0 rest
      simp only [ToolManager.get_provider_tools, if_neg hne, List.map_map]
      apply List.map_congr_left
      intro t ht
      obtain ⟨hty, hpt, hreq⟩ := h t ht
      obtain ⟨r, hr⟩ := Option.isSome_iff_exists.mp hreq
      rcases t with ⟨tty, ⟨n, dsc, ⟨pt, pp, pr⟩⟩⟩
      simp only at hty hpt hr
      subst hty hpt hr
      simp [providerToolToCanonical, anthropicToCanonical, Function.comp]
  · cases b <;> cases ts <;>
      simp [ToolManager.get_provider_tools, ProviderTool.geminiDecls]
  · intro tag
    cases ts <;> simp [ToolManager.get_provider_tools]
  · intro tag p
    exact ⟨rfl, by simp [ToolManager.get_provider_tools]⟩

/-- Claim C7, witness: the conversion evaluated at the sample web-search
tool of the repository test suite, discharging the canonical-shape
hypothesis of the Anthropic round-trip conjunct there. -/
theorem C7_tool_conversion_lossless_witness :
    (ToolManager.get_provider_tools
        (some [{ type := "function"
                 function :=
                   { name := "tavily_web_search"
                     description := "Search the web"
                     parameters :=
                       { type := "object"
                         properties := [("query", "string"), ("max_results", "integer")]
                         required := some ["query"] } } }])
        (.known .ANTHROPIC) true).map providerToolToCanonical =
      [some { type := "function"
              function :=
                { name := "tavily_web_search"
                  description := "Search the web"
                  parameters :=
                    { type := "object"
                      properties := [("query", "string"), ("max_results", "integer")]
                      required := some ["query"] } } }] :=
  (C7_tool_conversion_lossless _ true).2.2.2.1 (by decide)

/-- When every agent id survives the underscore-split indexing, the
registration loop publishes one agent_registered event per agent, in
order. -/
theorem registerAgents_ok (l : List Analysis.Agent)
    (acc : List Analysis.AnalysisEvent)
    (h : ∀ b ∈ l, Analysis.agentIdOk b = true) :
    Analysis.registerAgents l acc =
      .ok (acc ++ l.map Analysis.registeredEvent) := by
  induction l generalizing acc with
  | nil => simp [Analysis.registerAgents]
  | cons a l ih =>
    have ha := h a (List.mem_cons_self a l)
    cases hid : a.id with
    | none => simp [Analysis.agentIdOk, hid] at ha
    | some s =>
      simp only [Analysis.agentIdOk, hid, decide_eq_true_eq] at ha
      simp only [Analysis.registerAgents, hid]
      rw [if_neg (by omega)]
      rw [ih (acc ++ [Analysis.registeredEvent a])
        (fun b hb => h b (List.mem_cons_of_mem a hb))]
      simp

/-- Every event a task publishes is a started/completed/failed event whose
payload id is the payload id of the task agent. -/
theorem agentTaskEvents_mem {α : Type}
    (an : Analysis.Agent → Analysis.AgentContext → Except String α)
    (fr : String → Option String) (tree : List String)
    (b : Analysis.Agent) :
    ∀ e ∈ Analysis.agentTaskEvents an fr tree b,
      (e.type = "agent_started" ∨ e.type = "agent_completed" ∨
        e.type = "agent_failed") ∧
      Analysis.eventAgentId e = Analysis.payloadId b := by
  intro e he
  unfold Analysis.agentTaskEvents Analysis.executeAgent at he
  cases han : an b (Analysis.buildContext fr tree b) with
  | ok v =>
    rw [han] at he
    simp only [List.mem_cons, List.mem_singleton, List.not_mem_nil,
      or_false] at he
    rcases he with rfl | rfl
    · exact ⟨Or.inl rfl, rfl⟩
    · exact ⟨Or.inr (Or.inl rfl), rfl⟩
  | error er =>
    rw [han] at he
    simp only [List.mem_cons, List.mem_singleton, List.not_mem_nil,
      or_false] at he
    rcases he with rfl | rfl
    · exact ⟨Or.inl rfl, rfl⟩
    · exact ⟨Or.inr (Or.inr rfl), rfl⟩

/-- With a non-empty agent list whose ids all register cleanly, the Phase 3
run reduces to the fan-out over the agents with non-empty assignments:
registration events for every agent, lifecycle events and one outcome per
active agent, and the join result of the outcomes. -/
theorem phase3Run_ok_eq {α : Type} (agents : List Analysis.Agent)
    (tree : List String) (fr : String → Option String)
    (an : Analysis.Agent → Analysis.AgentContext → Except String α)
    (hne : agents ≠ [])
    (hids : ∀ b ∈ agents, Analysis.agentIdOk b = true) :
    Analysis.phase3Run (some agents) tree fr an =
      ((match Analysis.firstTaskError
          ((Analysis.phase3Active agents).map
            (Analysis.agentTaskOutcome an fr tree)) with
        | some e => { phase := "Deep Analysis", error := some e }
        | none =>
          { phase := "Deep Analysis"
            findings := some (((Analysis.phase3Active agents).map
              (Analysis.agentTaskOutcome an fr tree)).filterMap
                fun o => o.toOption) }),
       agents.map Analysis.registeredEvent ++
         (Analysis.phase3Active agents).flatMap
           (Analysis.agentTaskEvents an fr tree),
       Analysis.phase3Active agents) := by
  unfold Analysis.phase3Run
  simp only [Option.getD_some,
    show Analysis.phase3ResolveAgents agents tree = agents from by
      simp [Analysis.phase3ResolveAgents, hne],
    registerAgents_ok agents [] hids, List.nil_append, List.flatMap_map,
    List.map_map]
  rfl

/-- When the join sees no failure, every task outcome is a success, so the
collected findings list has one entry per task. -/
theorem firstTaskError_none_length {α : Type} (l : List (Except String α))
    (h : Analysis.firstTaskError l = none) :
    (l.filterMap fun o => o.toOption).length = l.length := by
  induction l with
  | nil => simp
  | cons o l ih =>
    cases o with
    | ok v =>
      simp only [Analysis.firstTaskError] at h
      have hcons :
          List.filterMap (fun o => o.toOption) (Except.ok v :: l) =
            v :: List.filterMap (fun o => o.toOption) l := by
        simp [Except.toOption]
      rw [hcons, List.length_cons, List.length_cons, ih h]
    | error e => simp [Analysis.firstTaskError] at h

/-- Claim C8: when the primary parser yields zero agents and the fallback
extractor returns a non-empty agent list, Phase 2 publishes exactly one
event — an agent_plan event summarizing exactly those agents — and stores
them in its result; and when the architect response carries a truthy error,
Phase 2 returns that response immediately with no agents parsed and no
event published. -/
theorem C8_phase2_fallback_plan_event (resp : Analysis.PlanResponse)
    (pp : String → List Analysis.Agent)
    (pf : String → Except String (List Analysis.Agent))
    (fb : List Analysis.Agent) :
    (optStrTruthy resp.error = false → pp (resp.plan.getD "") = [] →
      pf (resp.plan.getD "") = .ok fb → fb ≠ [] →
      Analysis.phase2Run (.ok resp) pp pf =
        ({ plan := resp.plan, error := resp.error, agents := some fb,
           phase := none },
          [Analysis.publishAgentPlan "phase2" fb]))
    ∧ (Analysis.publishAgentPlan "phase2" fb).type = "agent_plan"
    ∧ (optStrTruthy resp.error = true →
      Analysis.phase2Run (.ok resp) pp pf =
        ({ plan := resp.plan, error := resp.error, agents := none,
           phase := none }, [])) := by
  refine ⟨?_, rfl, ?_⟩
  · intro herr hpp hpf hfb
    simp [Analysis.phase2Run, herr, hpp, hpf, hfb]
  · intro herr
    simp [Analysis.phase2Run, herr]

/-- Claim C8, witness: a plan with no primary-parseable agents and a
fallback extractor returning two agents publishes the single agent_plan
event carrying those two agents, and an error-carrying architect response
is returned untouched with no events; both evaluated concretely. -/
theorem C8_phase2_fallback_plan_event_witness :
    Analysis.phase2Run (.ok { plan := some "plan text", error := none })
        (fun _ => [])
        (fun _ => .ok
          [{ id := some "agent_1", name := some "Logic Agent" },
           { id := some "agent_2", name := some "Data Agent" }]) =
      ({ plan := some "plan text", error := none
         agents := some
          [{ id := some "agent_1", name := some "Logic Agent" },
           { id := some "agent_2", name := some "Data Agent" }]
         phase := none },
        [Analysis.publishAgentPlan "phase2"
          [{ id := some "agent_1", name := some "Logic Agent" },
           { id := some "agent_2", name := some "Data Agent" }]])
    ∧ Analysis.phase2Run (.ok { plan := none, error := some "rate limited" })
        (fun _ => []) (fun _ => .ok []) =
      ({ plan := none, error := some "rate limited", agents := none,
         phase := none }, []) := by
  constructor
  · exact (C8_phase2_fallback_plan_event
      { plan := some "plan text", error := none } (fun _ => [])
      (fun _ => .ok
        [{ id := some "agent_1", name := some "Logic Agent" },
         { id := some "agent_2", name := some "Data Agent" }])
      [{ id := some "agent_1", name := some "Logic Agent" },
       { id := some "agent_2", name := some "Data Agent" }]).1
      rfl rfl rfl (by simp)
  · exact (C8_phase2_fallback_plan_event
      { plan := none, error := some "rate limited" } (fun _ => [])
      (fun _ => .ok []) []).2.2 rfl

/-- Claim C10: an agent definition with an empty file_assignments list
(outside the fallback case: the plan supplied a non-empty agent list) gets
exactly one agent_registered event, but is then silently skipped — no
agent_started, agent_completed or agent_failed event carries its payload
id, its architect is never invoked (it is missing from the invocation
list, which holds exactly the agents with non-empty assignments), and the
findings list of a successful phase has exactly one entry per invoked
agent, hence none for it. -/
theorem C10_empty_assignment_agent_skipped {α : Type}
    (agents : List Analysis.Agent) (tree : List String)
    (fr : String → Option String)
    (an : Analysis.Agent → Analysis.AgentContext → Except String α)
    (a : Analysis.Agent)
    (hne : agents ≠ [])
    (hids : ∀ b ∈ agents, Analysis.agentIdOk b = true)
    (hempty : a.file_assignments = [])
    (huniq : agents.filter
      (fun b => Analysis.payloadId b == Analysis.payloadId a) = [a]) :
    ((Analysis.phase3Run (some agents) tree fr an).2.1.filter fun e =>
        e.type == "agent_registered"
          && (Analysis.eventAgentId e == Analysis.payloadId a)).length = 1
    ∧ ((Analysis.phase3Run (some agents) tree fr an).2.1.filter fun e =>
        (e.type == "agent_started" || e.type == "agent_completed"
          || e.type == "agent_failed")
          && (Analysis.eventAgentId e == Analysis.payloadId a)) = []
    ∧ (Analysis.phase3Run (some agents) tree fr an).2.2 =
        Analysis.phase3Active agents
    ∧ a ∉ (Analysis.phase3Run (some agents) tree fr an).2.2
    ∧ (∀ fs,
        (Analysis.phase3Run (some agents) tree fr an).1.findings = some fs →
        fs.length = (Analysis.phase3Active agents).length) := by
  have hrun := phase3Run_ok_eq agents tree fr an hne hids
  have hactive_not_a : ∀ b ∈ Analysis.phase3Active agents,
      (Analysis.payloadId b == Analysis.payloadId a) = false := by
    intro b hb
    by_contra hcontra
    have hbeq : (Analysis.payloadId b == Analysis.payloadId a) = true := by
      revert hcontra
      cases Analysis.payloadId b == Analysis.payloadId a <;> simp
    have hbmem : b ∈ agents.filter
        (fun b => Analysis.payloadId b == Analysis.payloadId a) := by
      rcases List.mem_filter.mp hb with ⟨hbm, _⟩
      exact List.mem_filter.mpr ⟨hbm, hbeq⟩
    rw [huniq] at hbmem
    rcases List.mem_filter.mp hb with ⟨_, hbne⟩
    rw [List.mem_singleton.mp hbmem, hempty] at hbne
    simp at hbne
  have hflat_reg : ((Analysis.phase3Active agents).flatMap
      (Analysis.agentTaskEvents an fr tree)).filter (fun e =>
        e.type == "agent_registered"
          && (Analysis.eventAgentId e == Analysis.payloadId a)) = [] := by
    rw [List.filter_eq_nil_iff]
    intro e he
    obtain ⟨b, hb, heb⟩ := List.mem_flatMap.mp he
    obtain ⟨hty, _⟩ := agentTaskEvents_mem an fr tree b e heb
    rcases hty with h1 | h1 | h1 <;> simp [h1]
  have hflat_life : ((Analysis.phase3Active agents).flatMap
      (Analysis.agentTaskEvents an fr tree)).filter (fun e =>
        (e.type == "agent_started" || e.type == "agent_completed"
          || e.type == "agent_failed")
          && (Analysis.eventAgentId e == Analysis.payloadId a)) = [] := by
    rw [List.filter_eq_nil_iff]
    intro e he
    obtain ⟨b, hb, heb⟩ := List.mem_flatMap.mp he
    obtain ⟨_, hid⟩ := agentTaskEvents_mem an fr tree b e heb
    rw [hid]
    simp [hactive_not_a b hb]
  have hreg_filter : (agents.map Analysis.registeredEvent).filter (fun e =>
      e.type == "agent_registered"
        && (Analysis.eventAgentId e == Analysis.payloadId a))
      = [Analysis.registeredEvent a] := by
    rw [List.filter_map]
    have hcong : agents.filter ((fun e =>
        e.type == "agent_registered"
          && (Analysis.eventAgentId e == Analysis.payloadId a)) ∘
          Analysis.registeredEvent)
        = agents.filter
          (fun b => Analysis.payloadId b == Analysis.payloadId a) :=
      List.filter_congr fun b _ => by
        simp [Function.comp, Analysis.registeredEvent, Analysis.eventAgentId]
    rw [hcong, huniq]
    rfl
  have hreg_life : (agents.map Analysis.registeredEvent).filter (fun e =>
      (e.type == "agent_started" || e.type == "agent_completed"
        || e.type == "agent_failed")
        && (Analysis.eventAgentId e == Analysis.payloadId a)) = [] := by
    rw [List.filter_eq_nil_iff]
    intro e he
    obtain ⟨b, hb, rfl⟩ := List.mem_map.mp he
    simp [Analysis.registeredEvent]
  refine ⟨?_, ?_, ?_, ?_, ?_⟩
  · rw [hrun]
    simp only [List.filter_append, hreg_filter, hflat_reg, List.append_nil,
      List.length_singleton]
  · rw [hrun]
    simp only [List.filter_append, hreg_life, hflat_life, List.append_nil]
  · rw [hrun]
  · rw [hrun]
    intro hmem
    rcases List.mem_filter.mp hmem with ⟨_, hbne⟩
    rw [hempty] at hbne
    simp at hbne
  · intro fs hfs
    rw [hrun] at hfs
    cases hfe : Analysis.firstTaskError ((Analysis.phase3Active agents).map
        (Analysis.agentTaskOutcome an fr tree)) with
    | some e =>
      rw [hfe] at hfs
      simp at hfs
    | none =>
      rw [hfe] at hfs
      have hfs2 : some (((Analysis.phase3Active agents).map
          (Analysis.agentTaskOutcome an fr tree)).filterMap
            fun o => o.toOption) = some fs := hfs
      rw [← Option.some.inj hfs2, firstTaskError_none_length _ hfe,
        List.length_map]

/-- Claim C10, witness: a two-agent plan where the second agent has no file
assignments — it is registered once, no lifecycle event carries its id, it
is not invoked, and the findings of the successful run have exactly one
entry (for the one active agent). -/
theorem C10_empty_assignment_agent_skipped_witness :
    ((Analysis.phase3Run (α := Nat)
        (some [{ id := some "agent_1", name := some "Code Agent",
                 file_assignments := ["main.py"] },
               { id := some "agent_2", name := some "Idle Agent" }])
        ["main.py"] (fun _ => some "print") (fun _ _ => .ok 5)).2.1.filter
        fun e => e.type == "agent_registered"
          && (Analysis.eventAgentId e ==
            Analysis.payloadId
              { id := some "agent_2", name := some "Idle Agent" })).length = 1
    ∧ ((Analysis.phase3Run (α := Nat)
        (some [{ id := some "agent_1", name := some "Code Agent",
                 file_assignments := ["main.py"] },
               { id := some "agent_2", name := some "Idle Agent" }])
        ["main.py"] (fun _ => some "print") (fun _ _ => .ok 5)).2.1.filter
        fun e => (e.type == "agent_started" || e.type == "agent_completed"
          || e.type == "agent_failed")
          && (Analysis.eventAgentId e ==
            Analysis.payloadId
              { id := some "agent_2", name := some "Idle Agent" })) = []
    ∧ ({ id := some "agent_2", name := some "Idle Agent" } : Analysis.Agent)
        ∉ (Analysis.phase3Run (α := Nat)
        (some [{ id := some "agent_1", name := some "Code Agent",
                 file_assignments := ["main.py"] },
               { id := some "agent_2", name := some "Idle Agent" }])
        ["main.py"] (fun _ => some "print") (fun _ _ => .ok 5)).2.2 := by
  have h := C10_empty_assignment_agent_skipped (α := Nat)
    [{ id := some "agent_1", name := some "Code Agent",
       file_assignments := ["main.py"] },
     { id := some "agent_2", name := some "Idle Agent" }]
    ["main.py"] (fun _ => some "print") (fun _ _ => .ok 5)
    { id := some "agent_2", name := some "Idle Agent" }
    (by decide) (by decide) rfl (by decide)
  exact ⟨h.1, h.2.1, h.2.2.2.1⟩

/-- Claim C9: with zero agent definitions from Phase 2, Phase 3 substitutes
exactly the three hardcoded fallback agents — code analysis, dependency
mapping, architecture — each assigned the identical full list of source
files extracted from the tree by the extension filter. -/
theorem C9_fallback_three_agents (tree : List String) :
    Analysis.phase3ResolveAgents [] tree =
      [ { id := some "agent_1", name := some "Code Analysis Agent",
          description := some "Analyzes code quality, patterns, and implementation details",
          responsibilities := [],
          file_assignments := Analysis.phase3AllFilePaths tree },
        { id := some "agent_2", name := some "Dependency Mapping Agent",
          description := some "Maps dependencies between files and modules",
          responsibilities := [],
          file_assignments := Analysis.phase3AllFilePaths tree },
        { id := some "agent_3", name := some "Architecture Agent",
          description := some "Analyzes overall architecture and design patterns",
          responsibilities := [],
          file_assignments := Analysis.phase3AllFilePaths tree } ] := by
  rfl

end RulesArchitect
